import Mathlib

/-!
Shallow embedding of the will-i-fly-puw Risk Prediction & Calibration Engine
(src/backend/prediction_engine.py, src/backend/history_db.py, src/backend/api.py).

Modelling conventions:
* Python floats are modelled as `ℚ` (the engine's arithmetic is +, *, /, min, max,
  all exact on the decimal literals involved), except the crosswind calculator,
  which genuinely computes with `sin` and is modelled over `ℝ`.
* Optional dict fields become `Option` fields of a structure; a weather dict whose
  keys are present but hold `None` is a record with all fields `none`.
* The SQLite store is an oracle: the engine functions take the query functions
  `find_similar_flights` / `find_similar_flights_multi_airport` as parameters
  returning `(total, cancelled)` pairs.  The WHERE-clause construction of those
  two functions is embedded separately as a `List Clause` builder.
* The crosswind helper called by the scoring paths is likewise passed as a
  rational-valued oracle parameter `Crosswind`, so that the scoring functions stay
  executable; the real-valued `calculate_crosswind` is embedded on its own.
* Python f-string factor messages are modelled by the inductive `Desc`, one
  constructor per distinct message, carrying the interpolated numeric payload;
  the `details` sub-dicts of detailed factors repeat that payload and are not
  duplicated.
-/

namespace WillIFly

/-- Weather reading: one airport's per-hour dict with optional fields
(src/backend/prediction_engine.py, src/backend/weather_data.py). -/
structure Weather where
  visibility_miles : Option ℚ := none
  wind_speed_knots : Option ℚ := none
  wind_direction : Option ℚ := none
  wind_gust_knots : Option ℚ := none
  temperature_f : Option ℚ := none
  precipitation_in : Option ℚ := none
  snow_depth_in : Option ℚ := none
  cloud_cover_pct : Option ℚ := none
  humidity_pct : Option ℚ := none
  description : Option String := none
  conditions : Option String := none
  deriving Repr, DecidableEq

/-- Scheduled time of a flight: either an already-parsed datetime (we retain the
month, the only component the engine reads) or an ISO string together with the
outcome of `datetime.fromisoformat` (an external parser, modelled as data:
`none` means the string does not parse). -/
inductive SchedTime where
  | dt (month : ℕ)
  | str (parsedMonth : Option ℕ)
  deriving Repr, DecidableEq

/-- Flight context dict. The source key `type` is `ftype` here. -/
structure Flight where
  scheduled_time : Option SchedTime := none
  ftype : Option String := none
  origin : Option String := none
  destination : Option String := none
  deriving Repr, DecidableEq

/-- Net effect of lines 198-204 of prediction_engine.py: a datetime passes
through, a string is parsed (unparseable becomes None), missing stays None. -/
def parseScheduled : Option SchedTime → Option ℕ
  | some (.dt m) => some m
  | some (.str p) => p
  | none => none

/-- Whether the first character list is a prefix of the second. -/
def prefixOfList : List Char → List Char → Bool
  | [], _ => true
  | _ :: _, [] => false
  | a :: as, b :: bs => a == b && prefixOfList as bs

/-- Whether the pattern occurs as a contiguous sublist of the text. -/
def containsAux (pat : List Char) : List Char → Bool
  | [] => prefixOfList pat []
  | c :: rest => prefixOfList pat (c :: rest) || containsAux pat rest

/-- Python substring test `pat in s`. -/
def containsSub (s pat : String) : Bool := containsAux pat.data s.data

/-- Python str.lower, character by character. -/
def lowerStr (s : String) : String := ⟨s.data.map Char.toLower⟩

/-- Lower-cased `weather.get('description','')` (prediction_engine.py line 284). -/
def descTextOf (w : Weather) : String := lowerStr (w.description.getD "")

/-- Lower-cased `weather.get('conditions','')` (prediction_engine.py line 600). -/
def condTextOf (w : Weather) : String := lowerStr (w.conditions.getD "")

/-- Month to base cancellation rate lookup, `self.seasonal_baselines` with the
`.get(month, 5)` default (prediction_engine.py lines 36-47). -/
def get_seasonal_baseline (month : ℕ) : ℚ :=
  if month = 1 then (41/10 : ℚ)
  else if month = 2 then (24/5 : ℚ)
  else if month = 3 then (1/2 : ℚ)
  else if month = 4 then (8/5 : ℚ)
  else if month = 5 then (7/10 : ℚ)
  else if month = 6 then (9/10 : ℚ)
  else if month = 7 then (2/5 : ℚ)
  else if month = 8 then (9/10 : ℚ)
  else if month = 9 then (3/5 : ℚ)
  else if month = 10 then (1/10 : ℚ)
  else if month = 11 then (17/10 : ℚ)
  else if month = 12 then (59/10 : ℚ)
  else 5

/-- Result row of the calibration query: `(total, avg_predicted, actual_cancelled)`;
`none` models both a failed query (the except branch) and an absent row. -/
def CalibrationRow := Option (ℕ × ℚ × ℕ)

/-- PredictionEngine._compute_calibration_factor (prediction_engine.py lines
49-124), as a function of the query outcome. -/
def compute_calibration_factor (row : CalibrationRow) : ℚ :=
  match row with
  | none => (1/2 : ℚ)
  | some (total, avg_predicted, actual_cancelled) =>
    if total < 30 then (1/2 : ℚ)
    else
      let actual_rate : ℚ := if 0 < total then ((actual_cancelled : ℚ) / (total : ℚ)) * 100 else 0
      if actual_cancelled = 0 then (3/10 : ℚ)
      else if 0 < avg_predicted then
        let ideal_factor := actual_rate / avg_predicted
        let cf := max (1/10 : ℚ) (min (2 : ℚ) ideal_factor)
        if cf < (1/2 : ℚ) then (1/2 : ℚ) + (cf - (1/2 : ℚ)) * (1/2 : ℚ) else cf
      else (1/2 : ℚ)

/-- Modelled from the spec section 4.6 (the reference definition the claim about
calibration compares against): 0.5 on failure or fewer than 30 matched
predictions; 0.3 with zero observed cancellations; otherwise the actual
cancellation rate over the average predicted score, clamped to [0.1, 2.0] and
damped halfway toward 0.5 when below 0.5. -/
def specCalibrationFactor (row : CalibrationRow) : ℚ :=
  match row with
  | none => (1/2 : ℚ)
  | some (total, avg_predicted, actual_cancelled) =>
    if total < 30 then (1/2 : ℚ)
    else if actual_cancelled = 0 then (3/10 : ℚ)
    else
      let ideal := (((actual_cancelled : ℚ) / (total : ℚ)) * 100) / avg_predicted
      let clamped := max (1/10 : ℚ) (min (2 : ℚ) ideal)
      if clamped < (1/2 : ℚ) then (1/2 : ℚ) + (clamped - (1/2 : ℚ)) * (1/2 : ℚ) else clamped

/-- PredictionEngine.apply_calibration (prediction_engine.py lines 126-143). -/
def apply_calibration (calibration_factor raw_score : ℚ) : ℚ :=
  max 0 (min 100 (raw_score * calibration_factor))

/-- PredictionEngine.RUNWAY_HEADINGS with the `.get(code, LEGACY_RUNWAY_HEADINGS)`
fallback (prediction_engine.py lines 24-31, 162). -/
def RUNWAY_HEADINGS (airport_code : String) : List ℝ :=
  if airport_code = "KPUW" then [50, 230]
  else if airport_code = "KSEA" then [160, 340, 170, 350]
  else if airport_code = "KBOI" then [100, 280, 120, 300]
  else [50, 230]

/-- Crosswind component for a single runway heading (prediction_engine.py lines
166-176): absolute angular difference normalized to [0,180], then
`|speed * sin(radians(angle))|`. -/
noncomputable def crosswindComponent (wind_speed wind_direction runway_heading : ℝ) : ℝ :=
  let angle_diff := |wind_direction - runway_heading|
  let a := if angle_diff > 180 then 360 - angle_diff else angle_diff
  |wind_speed * Real.sin (a * Real.pi / 180)|

/-- PredictionEngine.calculate_crosswind (prediction_engine.py lines 145-179).
Python's `min` over the (always nonempty) list of per-runway components is a
left fold over the head; the empty-list arm is unreachable. -/
noncomputable def calculate_crosswind (wind_speed wind_direction : Option ℝ)
    (airport_code : String) : Option ℝ :=
  match wind_speed, wind_direction with
  | some s, some d =>
    match (RUNWAY_HEADINGS airport_code).map (crosswindComponent s d) with
    | [] => none
    | x :: xs => some (xs.foldl min x)
  | _, _ => none

/-- One SQL WHERE conjunct produced by the historical analog matchers
(history_db.py).  Each constructor records the column family and bound. -/
inductive Clause where
  | visLe (bound : ℚ)
  | visGt2
  | windSpeedGe (bound : ℚ)
  | tempLt (bound : ℚ)
  | originVisLe (bound : ℚ)
  | originWindGe (bound : ℚ)
  | originSnowGe (bound : ℚ)
  | originPrecipGe (bound : ℚ)
  | destVisLe (bound : ℚ)
  | destWindGe (bound : ℚ)
  | destSnowGe (bound : ℚ)
  | destPrecipGe (bound : ℚ)
  | puwVisLe (bound : ℚ)
  | puwWindGe (bound : ℚ)
  | puwSnowGe (bound : ℚ)
  | puwPrecipGe (bound : ℚ)
  deriving Repr, DecidableEq

/-- Whether a clause filters on stored temperature. -/
def Clause.isTempClause : Clause → Bool
  | .tempLt _ => true
  | _ => false

/-- WHERE clauses built by HistoryDatabase.find_similar_flights
(history_db.py lines 214-241), in source order. -/
def find_similar_flights_filter (visibility wind temp : Option ℚ) : List Clause :=
  (match visibility with
   | some v => if v < (2 : ℚ) then [Clause.visLe (v + (1/2 : ℚ))] else [Clause.visGt2]
   | none => []) ++
  (match wind with
   | some w => if w > 15 then [Clause.windSpeedGe (w - 5)] else []
   | none => []) ++
  (match temp with
   | some t => if t < 34 then [Clause.tempLt 34] else []
   | none => [])

/-- The vis/wind/snow/precip clause block repeated for origin, dest, and PUW in
HistoryDatabase.find_similar_flights_multi_airport (history_db.py lines
694-773), parameterized by the column family's constructors. -/
def fingerprintClauses (visC windC snowC precipC : ℚ → Clause) (w : Weather) : List Clause :=
  (match w.visibility_miles with
   | some v => if v < (3 : ℚ) then [visC (v + (1/2 : ℚ))] else []
   | none => []) ++
  (let effective_wind := match w.wind_gust_knots with
     | some g => some g
     | none => w.wind_speed_knots
   match effective_wind with
   | some e => if e > 20 then [windC (e - 5)] else []
   | none => []) ++
  (match w.snow_depth_in with
   | some s => if s > 1 then [snowC (max 0 (s - 2))] else []
   | none => []) ++
  (match w.precipitation_in with
   | some p => if p > (1/10 : ℚ) then [precipC (max 0 (p - (1/10 : ℚ)))] else []
   | none => [])

/-- WHERE clauses built by HistoryDatabase.find_similar_flights_multi_airport
(history_db.py lines 673-773): origin block for arrivals or dest block for
departures, then always the PUW block. -/
def find_similar_flights_multi_airport_filter (puw_weather origin_weather dest_weather :
    Option Weather) (flight_type : Option String) : List Clause :=
  (if flight_type = some "arrival" then
    match origin_weather with
    | some w => fingerprintClauses .originVisLe .originWindGe .originSnowGe .originPrecipGe w
    | none => []
   else if flight_type = some "departure" then
    match dest_weather with
    | some w => fingerprintClauses .destVisLe .destWindGe .destSnowGe .destPrecipGe w
    | none => []
   else []) ++
  (match puw_weather with
   | some w => fingerprintClauses .puwVisLe .puwWindGe .puwSnowGe .puwPrecipGe w
   | none => [])

/-- Factor message appended to `factors` (and reused as the `description` of the
paired detailed factor).  One constructor per distinct f-string of
prediction_engine.py, carrying the interpolated values. -/
inductive Desc where
  | seasonalBaseline (baseline : ℚ) (month : ℕ)
  | criticalVisibility (vis : ℚ)
  | lowVisibility (vis : ℚ)
  | reducedVisibility (vis : ℚ)
  | extremeCrosswind (cross : ℚ) (wind dir : Option ℚ)
  | highCrosswind (cross : ℚ) (wind dir : Option ℚ)
  | moderateCrosswind (cross : ℚ) (wind dir : Option ℚ)
  | extremeWind (wind : ℚ)
  | highWind (wind : ℚ)
  | breezy (wind : ℚ)
  | icingConditions
  | histVisibility (pct : ℤ) (bound : ℚ) (cancelled total : ℕ)
  | histWind (pct : ℤ) (bound : ℚ) (cancelled total : ℕ)
  | histIcing (pct : ℤ) (cancelled total : ℕ)
  | puwSummary (w : Option Weather)
  | airportSummary (code : String) (w : Option Weather) (impact : ℤ)
  | airportAffecting (code : String) (phase : String)
  | puwHistory (pct : ℤ) (cancelled total : ℕ)
  | otherHistory (airport : Option String) (pct : ℤ) (cancelled total : ℕ)
  deriving Repr, DecidableEq

/-- Whether a factor message is the seasonal-baseline one. -/
def Desc.isSeasonal : Desc → Bool
  | .seasonalBaseline _ _ => true
  | _ => false

/-- Entry of `detailed_factors`: category plus description; the numeric
`details` dict repeats the payload already carried inside `Desc`. -/
structure DFactor where
  category : String
  description : Desc
  deriving Repr, DecidableEq

/-- The `breakdown` dict of the single-airport path, with the two keys added
after calibration. -/
structure Breakdown where
  seasonal_baseline : ℚ := 0
  weather_score : ℚ := 0
  history_adjustment : ℚ := 0
  final_score : ℚ := 0
  calibrated_score : ℚ := 0
  calibration_adjustment : ℚ := 0
  deriving Repr, DecidableEq

/-- The `breakdown` dict of the multi-airport path. -/
structure BreakdownMulti where
  seasonal_baseline : ℚ := 0
  puw_weather_score : ℚ := 0
  origin_weather_score : ℚ := 0
  dest_weather_score : ℚ := 0
  history_adjustment : ℚ := 0
  final_score : ℚ := 0
  calibrated_score : ℚ := 0
  calibration_adjustment : ℚ := 0
  deriving Repr, DecidableEq

/-- RiskScore value object (prediction_engine.py lines 5-20), generic in the
breakdown shape. -/
structure RiskScore (B : Type) where
  score : ℚ
  factors : List Desc
  risk_level : String
  breakdown : B
  detailed_factors : List DFactor
  deriving Repr, DecidableEq

/-- Oracle for HistoryDatabase.find_similar_flights: maps the
(visibility, wind, temp) arguments to the returned (total, cancelled). -/
def FindSimilar := Option ℚ → Option ℚ → Option ℚ → ℕ × ℕ

/-- Oracle for HistoryDatabase.find_similar_flights_multi_airport: maps the
(puw, origin, dest, flight_type) arguments to the returned (total, cancelled). -/
def FindSimilarMulti := Option Weather → Option Weather → Option Weather → Option String → ℕ × ℕ

/-- Oracle for the crosswind helper as consumed by the scoring paths, with the
codomain kept rational so scoring stays executable; `calculate_crosswind` above
is its real-valued referent. -/
def Crosswind := Option ℚ → Option ℚ → String → Option ℚ

/-- Output of one score-contributing section: contribution, factor messages,
detailed factors, in append order. -/
structure SectionOut where
  score : ℚ
  fs : List Desc
  ds : List DFactor
  deriving Repr, DecidableEq

/-- Output of one historical-blend step: the blended running score, the delta
added to `breakdown["history_adjustment"]`, and the appended factors. -/
structure HistStepOut where
  score : ℚ
  delta : ℚ
  fs : List Desc
  ds : List DFactor
  deriving Repr, DecidableEq

/-- Seasonal-baseline section of both scoring paths (prediction_engine.py lines
196-216 and 417-436): contribution and the factor emitted when the baseline
exceeds 10. -/
def seasonalSection (parsedMonth : Option ℕ) : SectionOut :=
  match parsedMonth with
  | none => ⟨0, [], []⟩
  | some m =>
    let baseline := get_seasonal_baseline m
    if baseline > 10 then
      ⟨baseline, [Desc.seasonalBaseline baseline m],
        [⟨"Seasonal", Desc.seasonalBaseline baseline m⟩]⟩
    else ⟨baseline, [], []⟩

/-- Visibility band of calculate_risk (prediction_engine.py lines 221-238). -/
def visBand (vis : Option ℚ) : SectionOut :=
  match vis with
  | none => ⟨0, [], []⟩
  | some v =>
    if v < (1/2 : ℚ) then ⟨60, [.criticalVisibility v], [⟨"Weather", .criticalVisibility v⟩]⟩
    else if v < (1 : ℚ) then ⟨40, [.lowVisibility v], [⟨"Weather", .lowVisibility v⟩]⟩
    else if v < (3 : ℚ) then ⟨15, [.reducedVisibility v], [⟨"Weather", .reducedVisibility v⟩]⟩
    else ⟨0, [], []⟩

/-- Wind band of calculate_risk (prediction_engine.py lines 240-280): crosswind
bands when the helper returns a value, sustained-wind fallback otherwise.  Note
the sustained speed is used; the gust field is not consulted on this path. -/
def windBandSingle (xw : Crosswind) (wind dir : Option ℚ) : SectionOut :=
  match xw wind dir "KPUW" with
  | some c =>
    if c > 25 then ⟨50, [.extremeCrosswind c wind dir], [⟨"Weather", .extremeCrosswind c wind dir⟩]⟩
    else if c > 15 then ⟨30, [.highCrosswind c wind dir], [⟨"Weather", .highCrosswind c wind dir⟩]⟩
    else if c > 10 then ⟨10, [.moderateCrosswind c wind dir], [⟨"Weather", .moderateCrosswind c wind dir⟩]⟩
    else ⟨0, [], []⟩
  | none =>
    match wind with
    | some w =>
      if w > 40 then ⟨50, [.extremeWind w], [⟨"Weather", .extremeWind w⟩]⟩
      else if w > 30 then ⟨30, [.highWind w], [⟨"Weather", .highWind w⟩]⟩
      else if w > 20 then ⟨10, [.breezy w], [⟨"Weather", .breezy w⟩]⟩
      else ⟨0, [], []⟩
    | none => ⟨0, [], []⟩

/-- Icing band of calculate_risk (prediction_engine.py lines 282-290). -/
def icingBand (temp : Option ℚ) (dtext : String) : SectionOut :=
  match temp with
  | none => ⟨0, [], []⟩
  | some t =>
    if t < 32 then
      if containsSub dtext "snow" || containsSub dtext "rain" ||
          containsSub dtext "drizzle" || containsSub dtext "fog" then
        ⟨25, [.icingConditions], [⟨"Weather", .icingConditions⟩]⟩
      else ⟨0, [], []⟩
    else ⟨0, [], []⟩

/-- Weather-heuristics section of calculate_risk (prediction_engine.py lines
218-293): visibility, wind and icing contributions summed, factors in order. -/
def weatherSection (xw : Crosswind) (w : Weather) : SectionOut :=
  let v := visBand w.visibility_miles
  let wb := windBandSingle xw w.wind_speed_knots w.wind_direction
  let ic := icingBand w.temperature_f (descTextOf w)
  ⟨v.score + wb.score + ic.score, v.fs ++ wb.fs ++ ic.fs, v.ds ++ wb.ds ++ ic.ds⟩

/-- Visibility history step of calculate_risk (prediction_engine.py lines
298-319): with ≥5 analogs, blend by average. -/
def histVisStep (db : FindSimilar) (vis : Option ℚ) (score : ℚ) : HistStepOut :=
  match vis with
  | some v =>
    if v < (3 : ℚ) then
      let r := db (some v) none none
      if 5 ≤ r.1 then
        let p : ℚ := ((r.2 : ℚ) / (r.1 : ℚ)) * 100
        ⟨(score + p) / 2, (score + p) / 2 - score,
         [.histVisibility ⌊p⌋ (v + (1/2 : ℚ)) r.2 r.1],
         [⟨"History", .histVisibility ⌊p⌋ (v + (1/2 : ℚ)) r.2 r.1⟩]⟩
      else ⟨score, 0, [], []⟩
    else ⟨score, 0, [], []⟩
  | none => ⟨score, 0, [], []⟩

/-- Wind history step of calculate_risk (prediction_engine.py lines 321-343):
with ≥5 analogs, blend by max; the adjustment delta is added only when the max
strictly raises the score. -/
def histWindStep (db : FindSimilar) (wind : Option ℚ) (score : ℚ) : HistStepOut :=
  match wind with
  | some w =>
    if w > 20 then
      let r := db none (some w) none
      if 5 ≤ r.1 then
        let p : ℚ := ((r.2 : ℚ) / (r.1 : ℚ)) * 100
        ⟨max score p, if max score p > score then max score p - score else 0,
         [.histWind ⌊p⌋ (w - 5) r.2 r.1],
         [⟨"History", .histWind ⌊p⌋ (w - 5) r.2 r.1⟩]⟩
      else ⟨score, 0, [], []⟩
    else ⟨score, 0, [], []⟩
  | none => ⟨score, 0, [], []⟩

/-- Icing history step of calculate_risk (prediction_engine.py lines 345-367):
freezing with snow/rain/fog text (no drizzle on this path), ≥5 analogs, blend
by max. -/
def histIcingStep (db : FindSimilar) (temp : Option ℚ) (dtext : String) (score : ℚ) : HistStepOut :=
  match temp with
  | some t =>
    if t < 32 then
      if containsSub dtext "snow" || containsSub dtext "rain" || containsSub dtext "fog" then
        let r := db none none (some t)
        if 5 ≤ r.1 then
          let p : ℚ := ((r.2 : ℚ) / (r.1 : ℚ)) * 100
          ⟨max score p, if max score p > score then max score p - score else 0,
           [.histIcing ⌊p⌋ r.2 r.1],
           [⟨"History", .histIcing ⌊p⌋ r.2 r.1⟩]⟩
        else ⟨score, 0, [], []⟩
      else ⟨score, 0, [], []⟩
    else ⟨score, 0, [], []⟩
  | none => ⟨score, 0, [], []⟩

/-- Risk level from the calibrated score (prediction_engine.py lines 381-386). -/
def riskLevel (score : ℚ) : String :=
  if score ≥ 70 then "High" else if score ≥ 40 then "Medium" else "Low"

/-- PredictionEngine.calculate_risk (prediction_engine.py lines 181-388), with
the store and crosswind helper as oracles and the engine's calibration factor
as a parameter. -/
def calculate_risk (db : FindSimilar) (xw : Crosswind) (calibration_factor : ℚ)
    (flight : Flight) (weather : Weather) : RiskScore Breakdown :=
  let seas := seasonalSection (parseScheduled flight.scheduled_time)
  let ws := weatherSection xw weather
  let score0 := seas.score + ws.score
  let h1 := histVisStep db weather.visibility_miles score0
  let h2 := histWindStep db weather.wind_speed_knots h1.score
  let h3 := histIcingStep db weather.temperature_f (descTextOf weather) h2.score
  let capped := max (min h3.score 99) 0
  let calibrated := apply_calibration calibration_factor capped
  { score := calibrated
    factors := seas.fs ++ ws.fs ++ h1.fs ++ h2.fs ++ h3.fs
    risk_level := riskLevel calibrated
    breakdown :=
      { seasonal_baseline := seas.score
        weather_score := ws.score
        history_adjustment := h1.delta + h2.delta + h3.delta
        final_score := capped
        calibrated_score := calibrated
        calibration_adjustment := calibrated - capped }
    detailed_factors := seas.ds ++ ws.ds ++ h1.ds ++ h2.ds ++ h3.ds }

/-- PredictionEngine._score_airport_weather (prediction_engine.py lines
575-670): per-airport comprehensive weather sub-score.  The effective wind is
the gust when present, the sustained speed otherwise. -/
def score_airport_weather (xw : Crosswind) (weather : Option Weather)
    (airport_code : String) (operation_type : Option String) : ℚ :=
  match weather with
  | none => 0
  | some w =>
    let _ := operation_type
    let vis := w.visibility_miles
    let effective_wind := match w.wind_gust_knots with
      | some g => some g
      | none => w.wind_speed_knots
    let crosswind := xw effective_wind w.wind_direction airport_code
    let visScore : ℚ := match vis with
      | some v => if v < (1/2 : ℚ) then 60 else if v < (1 : ℚ) then 40 else if v < (3 : ℚ) then 15 else 0
      | none => 0
    let windScore : ℚ := match crosswind with
      | some c => if c > 25 then 50 else if c > 15 then 30 else if c > 10 then 10 else 0
      | none => match effective_wind with
        | some e => if e > 40 then 50 else if e > 30 then 30 else if e > 20 then 10 else 0
        | none => 0
    let snowScore : ℚ := match w.snow_depth_in with
      | some s => if s > 0 then (if s > 6 then 40 else if s > 3 then 25 else if s > 1 then 15 else 0) else 0
      | none => 0
    let precipScore : ℚ := match w.precipitation_in with
      | some p =>
        if p > 0 then
          match w.temperature_f with
          | some t =>
            if t < 32 then (if p > (3/10 : ℚ) then 30 else if p > (1/10 : ℚ) then 20 else 10)
            else (if p > (1/2 : ℚ) then 15 else if p > (1/10 : ℚ) then 8 else 0)
          | none => if p > (1/2 : ℚ) then 15 else if p > (1/10 : ℚ) then 8 else 0
        else 0
      | none => 0
    let cloudScore : ℚ := match w.cloud_cover_pct, vis with
      | some cc, some v => if cc > 90 then (if v < 5 then 10 else 0) else 0
      | _, _ => 0
    let icingScore : ℚ := match w.temperature_f with
      | some t =>
        if t < 32 then
          let humidPrecip := match w.humidity_pct, w.precipitation_in with
            | some h, some p => h > 80 && p > 0
            | _, _ => false
          if humidPrecip then 20
          else if containsSub (condTextOf w) "snow" || containsSub (condTextOf w) "ice" ||
              containsSub (condTextOf w) "freezing" then 15
          else 0
        else 0
      | none => 0
    visScore + windScore + snowScore + precipScore + cloudScore + icingScore

/-- PUW block of the multi-airport path (prediction_engine.py lines 438-443):
contribution and the factor string appended when positive (this append has no
detailed counterpart in the source). -/
def puwBlock (puw_score : ℚ) (puw_weather : Option Weather) : ℚ × List Desc :=
  if puw_score > 0 then (puw_score, [Desc.puwSummary puw_weather]) else (0, [])

/-- Origin block of the multi-airport path (prediction_engine.py lines
445-464): arrivals only, weighted (7/10 : ℚ) when the origin sub-score exceeds 20. -/
def originBlock (xw : Crosswind) (flight : Flight) (origin_weather : Option Weather) : SectionOut :=
  if flight.ftype = some "arrival" then
    match origin_weather with
    | some w =>
      let origin_code := flight.origin.getD "Unknown"
      let origin_score := score_airport_weather xw (some w) origin_code (some "departure")
      if origin_score > 20 then
        let weighted := origin_score * (7/10 : ℚ)
        ⟨weighted, [.airportSummary origin_code (some w) ⌊weighted⌋],
         [⟨"Origin Weather", .airportAffecting origin_code "departure"⟩]⟩
      else ⟨0, [], []⟩
    | none => ⟨0, [], []⟩
  else ⟨0, [], []⟩

/-- Destination block of the multi-airport path (prediction_engine.py lines
466-485): departures only, weighted (3/5 : ℚ) when the destination sub-score exceeds
20. -/
def destBlock (xw : Crosswind) (flight : Flight) (dest_weather : Option Weather) : SectionOut :=
  if flight.ftype = some "departure" then
    match dest_weather with
    | some w =>
      let dest_code := flight.destination.getD "Unknown"
      let dest_score := score_airport_weather xw (some w) dest_code (some "arrival")
      if dest_score > 20 then
        let weighted := dest_score * (3/5 : ℚ)
        ⟨weighted, [.airportSummary dest_code (some w) ⌊weighted⌋],
         [⟨"Destination Weather", .airportAffecting dest_code "arrival"⟩]⟩
      else ⟨0, [], []⟩
    | none => ⟨0, [], []⟩
  else ⟨0, [], []⟩

/-- Category string `"Historical - " + str(airport_name)` of the other-airport
history factor (Python formats None as "None"). -/
def histCategory (airport_name : Option String) : String :=
  "Historical - " ++ airport_name.getD "None"

/-- Historical-signal block of the multi-airport path (prediction_engine.py
lines 512-544): PUW signal at ≥10 matches, other-airport signal at ≥5. -/
def histMultiBlock (puw_total puw_cancelled other_total other_cancelled : ℕ)
    (airport_name : Option String) : List ℚ × List Desc × List DFactor :=
  let p1 : ℚ := ((puw_cancelled : ℚ) / (puw_total : ℚ)) * 100
  let p2 : ℚ := ((other_cancelled : ℚ) / (other_total : ℚ)) * 100
  ((if 10 ≤ puw_total then [p1] else []) ++ (if 5 ≤ other_total then [p2] else []),
   (if 10 ≤ puw_total then [Desc.puwHistory ⌊p1⌋ puw_cancelled puw_total] else []) ++
     (if 5 ≤ other_total then [Desc.otherHistory airport_name ⌊p2⌋ other_cancelled other_total] else []),
   (if 10 ≤ puw_total then [⟨"Historical - PUW", Desc.puwHistory ⌊p1⌋ puw_cancelled puw_total⟩] else []) ++
     (if 5 ≤ other_total then
       [⟨histCategory airport_name, Desc.otherHistory airport_name ⌊p2⌋ other_cancelled other_total⟩]
      else []))

/-- PredictionEngine.calculate_risk_multi_airport (prediction_engine.py lines
392-573). -/
def calculate_risk_multi_airport (db : FindSimilar) (dbm : FindSimilarMulti)
    (xw : Crosswind) (calibration_factor : ℚ) (flight : Flight)
    (puw_weather origin_weather dest_weather : Option Weather) : RiskScore BreakdownMulti :=
  let seas := seasonalSection (parseScheduled flight.scheduled_time)
  let puw_score := score_airport_weather xw puw_weather "KPUW" flight.ftype
  let puw := puwBlock puw_score puw_weather
  let ori := originBlock xw flight origin_weather
  let dst := destBlock xw flight dest_weather
  let score1 := seas.score + puw.1 + ori.score + dst.score
  let puwQuery := db (puw_weather.bind (·.visibility_miles))
    (puw_weather.bind (·.wind_speed_knots)) (puw_weather.bind (·.temperature_f))
  let otherQuery :=
    if flight.ftype = some "arrival" ∧ origin_weather.isSome then
      dbm none origin_weather none (some "arrival")
    else if flight.ftype = some "departure" ∧ dest_weather.isSome then
      dbm none none dest_weather (some "departure")
    else (0, 0)
  let airport_name := if flight.ftype = some "arrival" then flight.origin else flight.destination
  let hist := histMultiBlock puwQuery.1 puwQuery.2 otherQuery.1 otherQuery.2 airport_name
  let signals := hist.1
  let blended := match signals with
    | [] => (score1, (0 : ℚ))
    | _ =>
      let avg := signals.sum / (signals.length : ℚ)
      ((score1 + avg) / 2, (score1 + avg) / 2 - score1)
  let capped := max (min blended.1 99) 0
  let calibrated := apply_calibration calibration_factor capped
  { score := calibrated
    factors := seas.fs ++ puw.2 ++ ori.fs ++ dst.fs ++ hist.2.1
    risk_level := riskLevel calibrated
    breakdown :=
      { seasonal_baseline := seas.score
        puw_weather_score := puw.1
        origin_weather_score := ori.score
        dest_weather_score := dst.score
        history_adjustment := blended.2
        final_score := capped
        calibrated_score := calibrated
        calibration_adjustment := calibrated - capped }
    detailed_factors := seas.ds ++ ori.ds ++ dst.ds ++ hist.2.2 }

/-- Membership of effective_status in the cancelled list (api.py line 395). -/
def is_cancelled_status (s : String) : Bool := s == "cancelled" || s == "canceled"

/-- Membership of effective_status in the completed list (api.py line 396). -/
def is_landed_status (s : String) : Bool := s == "landed" || s == "arrived" || s == "departed"

/-- Scorecard grading of a logged prediction against the known outcome
(api.py lines 394-405); `none` models the grade staying unset for other
statuses. -/
def gradePrediction (score : ℚ) (effective_status : String) : Option String :=
  if is_cancelled_status effective_status then
    some (if score ≥ 70 then "Nailed It" else if score < 40 then "Miss" else "Neutral")
  else if is_landed_status effective_status then
    some (if score < 40 then "Smooth" else if score ≥ 70 then "False Alarm" else "Neutral")
  else none

/-! Concrete oracles used by closed witnesses and counterexamples. -/

/-- Store oracle with no matching historical flights. -/
def dbZero : FindSimilar := fun _ _ _ => (0, 0)

/-- Multi-airport store oracle with no matching historical flights. -/
def dbmZero : FindSimilarMulti := fun _ _ _ _ => (0, 0)

/-- Crosswind oracle for readings without a usable direction. -/
def xwNone : Crosswind := fun _ _ _ => none

/-! Claim C1: score bounds. -/

/-- C1: for every flight context and weather reading combination (all-None
fields included), both scoring paths produce a post-cap pre-calibration score
in [0, 99] (`breakdown.final_score`) and a final calibrated score in [0, 100]
(the `score` field of the returned RiskScore). -/
theorem risk_score_bounds (db : FindSimilar) (dbm : FindSimilarMulti) (xw : Crosswind)
    (cf : ℚ) (flight : Flight) (weather : Weather) (puw ow dw : Option Weather) :
    (0 ≤ (calculate_risk db xw cf flight weather).breakdown.final_score ∧
      (calculate_risk db xw cf flight weather).breakdown.final_score ≤ 99) ∧
    (0 ≤ (calculate_risk db xw cf flight weather).score ∧
      (calculate_risk db xw cf flight weather).score ≤ 100) ∧
    (0 ≤ (calculate_risk_multi_airport db dbm xw cf flight puw ow dw).breakdown.final_score ∧
      (calculate_risk_multi_airport db dbm xw cf flight puw ow dw).breakdown.final_score ≤ 99) ∧
    (0 ≤ (calculate_risk_multi_airport db dbm xw cf flight puw ow dw).score ∧
      (calculate_risk_multi_airport db dbm xw cf flight puw ow dw).score ≤ 100) := by
  refine ⟨⟨?_, ?_⟩, ⟨?_, ?_⟩, ⟨?_, ?_⟩, ⟨?_, ?_⟩⟩
  · exact le_max_right _ _
  · exact max_le (min_le_right _ _) (by norm_num)
  · exact le_max_left _ _
  · exact max_le (by norm_num) (min_le_left _ _)
  · exact le_max_right _ _
  · exact max_le (min_le_right _ _) (by norm_num)
  · exact le_max_left _ _
  · exact max_le (by norm_num) (min_le_left _ _)

/-! Claim C3: calibration factor. -/

/-- C3: the calibration factor computed at engine construction agrees with the
spec's reference definition whenever the average predicted score is positive
(the division the spec prescribes is undefined otherwise; the code then falls
back to 0.5), including on query failure, and the returned factor always lies
in [0.1, 2.0]. -/
theorem calibration_factor_spec :
    (compute_calibration_factor none = specCalibrationFactor none) ∧
    (∀ (total : ℕ) (avg : ℚ) (cancelled : ℕ), 0 < avg →
      compute_calibration_factor (some (total, avg, cancelled)) =
        specCalibrationFactor (some (total, avg, cancelled))) ∧
    (∀ row : CalibrationRow, (1/10 : ℚ) ≤ compute_calibration_factor row ∧
      compute_calibration_factor row ≤ 2) := by
  refine ⟨rfl, ?_, ?_⟩
  · intro total avg cancelled havg
    simp only [compute_calibration_factor, specCalibrationFactor]
    split_ifs with h1 h2 h3 h4 h5 h6 <;> first
      | rfl
      | (exfalso; omega)
  · intro row
    match row with
    | none => norm_num [compute_calibration_factor]
    | some (total, avg, cancelled) =>
      simp only [compute_calibration_factor]
      split_ifs with h1 h2 h3 h4 h5 h6
      · norm_num
      · norm_num
      · constructor <;>
          linarith [le_max_left (1/10 : ℚ)
              (min 2 ((cancelled : ℚ) / (total : ℚ) * 100 / avg)),
            max_le (show (1/10 : ℚ) ≤ 2 by norm_num)
              (min_le_left (2 : ℚ) ((cancelled : ℚ) / (total : ℚ) * 100 / avg))]
      · exact ⟨le_max_left _ _, max_le (by norm_num) (min_le_left _ _)⟩
      · constructor <;>
          linarith [le_max_left (1/10 : ℚ) (min 2 ((0 : ℚ) / avg)),
            max_le (show (1/10 : ℚ) ≤ 2 by norm_num)
              (min_le_left (2 : ℚ) ((0 : ℚ) / avg))]
      · exact ⟨le_max_left _ _, max_le (by norm_num) (min_le_left _ _)⟩
      · norm_num

/-- Witness for C3 at a concrete query row exercising the clamp-and-damp
branch: 40 matched predictions, average predicted score 50, 2 cancellations. -/
theorem calibration_factor_spec_witness :
    (0 : ℚ) < 50 ∧
    compute_calibration_factor (some (40, 50, 2)) = specCalibrationFactor (some (40, 50, 2)) ∧
    (1/10 : ℚ) ≤ compute_calibration_factor (some (40, 50, 2)) :=
  ⟨by norm_num, calibration_factor_spec.2.1 40 50 2 (by norm_num),
    (calibration_factor_spec.2.2 (some (40, 50, 2))).1⟩

/-! Claim C8: grading of logged predictions. -/

/-- C8: for a logged score and a known outcome, a cancelled flight grades
"Nailed It" when the score is at least 70, "Miss" below 40, "Neutral"
otherwise; a completed flight (landed, arrived or departed) grades "Smooth"
below 40, "False Alarm" at 70 or above, "Neutral" otherwise. -/
theorem prediction_grading_spec (score : ℚ) (st : String) :
    (is_cancelled_status st = true →
      gradePrediction score st =
        some (if score ≥ 70 then "Nailed It" else if score < 40 then "Miss" else "Neutral")) ∧
    (is_landed_status st = true →
      gradePrediction score st =
        some (if score < 40 then "Smooth" else if score ≥ 70 then "False Alarm" else "Neutral")) := by
  constructor
  · intro h
    simp only [is_cancelled_status, Bool.or_eq_true, beq_iff_eq] at h
    rcases h with h | h <;> subst h <;> rfl
  · intro h
    simp only [is_landed_status, Bool.or_eq_true, beq_iff_eq] at h
    rcases h with (h | h) | h <;> subst h <;> rfl

/-- Witness for C8 on two of the spec's own scenario vectors: a cancelled
flight scored 75 and a landed flight scored 20. -/
theorem prediction_grading_spec_witness :
    is_cancelled_status "cancelled" = true ∧
    gradePrediction 75 "cancelled" = some "Nailed It" ∧
    is_landed_status "landed" = true ∧
    gradePrediction 20 "landed" = some "Smooth" := by
  refine ⟨rfl, ?_, rfl, ?_⟩
  · have h := (prediction_grading_spec 75 "cancelled").1 rfl
    rw [if_pos (by norm_num)] at h
    exact h
  · have h := (prediction_grading_spec 20 "landed").2 rfl
    rw [if_pos (by norm_num)] at h
    exact h

/-! Claim C2: factors versus detailed_factors alignment. -/

lemma seasonalSection_align (pm : Option ℕ) :
    (seasonalSection pm).ds.map (·.description) = (seasonalSection pm).fs := by
  cases pm with
  | none => rfl
  | some m =>
    simp only [seasonalSection]
    split_ifs <;> rfl

lemma visBand_align (vis : Option ℚ) :
    (visBand vis).ds.map (·.description) = (visBand vis).fs := by
  cases vis with
  | none => rfl
  | some v =>
    simp only [visBand]
    split_ifs <;> rfl

lemma windBandSingle_align (xw : Crosswind) (wind dir : Option ℚ) :
    (windBandSingle xw wind dir).ds.map (·.description) = (windBandSingle xw wind dir).fs := by
  unfold windBandSingle
  cases xw wind dir "KPUW" with
  | some c => dsimp only; split_ifs <;> rfl
  | none =>
    cases wind with
    | none => rfl
    | some w => dsimp only; split_ifs <;> rfl

lemma icingBand_align (temp : Option ℚ) (dtext : String) :
    (icingBand temp dtext).ds.map (·.description) = (icingBand temp dtext).fs := by
  cases temp with
  | none => rfl
  | some t =>
    simp only [icingBand]
    split_ifs <;> rfl

lemma weatherSection_align (xw : Crosswind) (w : Weather) :
    (weatherSection xw w).ds.map (·.description) = (weatherSection xw w).fs := by
  simp only [weatherSection, List.map_append, visBand_align, windBandSingle_align, icingBand_align]

lemma histVisStep_align (db : FindSimilar) (vis : Option ℚ) (s : ℚ) :
    (histVisStep db vis s).ds.map (·.description) = (histVisStep db vis s).fs := by
  cases vis with
  | none => rfl
  | some v =>
    simp only [histVisStep]
    split_ifs <;> rfl

lemma histWindStep_align (db : FindSimilar) (wind : Option ℚ) (s : ℚ) :
    (histWindStep db wind s).ds.map (·.description) = (histWindStep db wind s).fs := by
  cases wind with
  | none => rfl
  | some w =>
    simp only [histWindStep]
    split_ifs <;> rfl

lemma histIcingStep_align (db : FindSimilar) (temp : Option ℚ) (dtext : String) (s : ℚ) :
    (histIcingStep db temp dtext s).ds.map (·.description) = (histIcingStep db temp dtext s).fs := by
  cases temp with
  | none => rfl
  | some t =>
    simp only [histIcingStep]
    split_ifs <;> rfl

lemma seasonalSection_len (pm : Option ℕ) :
    (seasonalSection pm).ds.length = (seasonalSection pm).fs.length := by
  have h := congrArg List.length (seasonalSection_align pm)
  simpa using h

lemma originBlock_len (xw : Crosswind) (f : Flight) (ow : Option Weather) :
    (originBlock xw f ow).ds.length = (originBlock xw f ow).fs.length := by
  unfold originBlock
  split_ifs
  · cases ow with
    | none => rfl
    | some w => simp only []; split_ifs <;> rfl
  · rfl

lemma destBlock_len (xw : Crosswind) (f : Flight) (dw : Option Weather) :
    (destBlock xw f dw).ds.length = (destBlock xw f dw).fs.length := by
  unfold destBlock
  split_ifs
  · cases dw with
    | none => rfl
    | some w => simp only []; split_ifs <;> rfl
  · rfl

lemma histMultiBlock_len (pt pc ot oc : ℕ) (n : Option String) :
    (histMultiBlock pt pc ot oc n).2.2.length = (histMultiBlock pt pc ot oc n).2.1.length := by
  simp only [histMultiBlock]
  split_ifs <;> simp

lemma puwBlock_len (s : ℚ) (w : Option Weather) :
    (puwBlock s w).2.length = if 0 < s then 1 else 0 := by
  simp only [puwBlock]
  split_ifs with h <;> rfl

/-- C2 (amended): on the single-airport path the detailed factors line up with
the factor strings one for one, in order (their descriptions are exactly the
factors list); on the multi-airport path every append is likewise paired
except the PUW weather summary, which is appended to `factors` only, so
`factors` has exactly one extra entry whenever the PUW sub-score is
positive. -/
theorem factors_detailed_alignment (db : FindSimilar) (dbm : FindSimilarMulti)
    (xw : Crosswind) (cf : ℚ) (flight : Flight) (weather : Weather)
    (puw ow dw : Option Weather) :
    ((calculate_risk db xw cf flight weather).detailed_factors.map (·.description) =
      (calculate_risk db xw cf flight weather).factors) ∧
    ((calculate_risk_multi_airport db dbm xw cf flight puw ow dw).factors.length =
      (calculate_risk_multi_airport db dbm xw cf flight puw ow dw).detailed_factors.length +
        (if 0 < score_airport_weather xw puw "KPUW" flight.ftype then 1 else 0)) := by
  constructor
  · simp only [calculate_risk, List.map_append, seasonalSection_align, weatherSection_align,
      histVisStep_align, histWindStep_align, histIcingStep_align]
  · simp only [calculate_risk_multi_airport, List.length_append, seasonalSection_len,
      originBlock_len, destBlock_len, histMultiBlock_len, puwBlock_len]
    generalize (if 0 < score_airport_weather xw puw "KPUW" flight.ftype then 1 else 0) = k
    omega

unseal Rat.add Rat.mul Rat.inv Rat.sub in
/-- Counterexample to C2 as stated: with benign PUW weather (visibility two
miles) and no other signals, the multi-airport path returns one factor but no
detailed factors. -/
theorem multi_airport_factor_mismatch :
    ¬ ((calculate_risk_multi_airport dbZero dbmZero xwNone 1 {}
        (some {visibility_miles := some 2}) none none).detailed_factors.length =
      (calculate_risk_multi_airport dbZero dbmZero xwNone 1 {}
        (some {visibility_miles := some 2}) none none).factors.length) := by
  decide

/-! Claim C4: order and policy of the single-airport historical blend. -/

/-- Visibility blend policy of the single-airport path: below three miles with
at least five analogs, the score becomes the average of score and historical
rate. -/
def visBlendRule (db : FindSimilar) (vis : Option ℚ) (score : ℚ) : ℚ :=
  match vis with
  | some v =>
    if v < (3 : ℚ) then
      let r := db (some v) none none
      if 5 ≤ r.1 then (score + ((r.2 : ℚ) / (r.1 : ℚ)) * 100) / 2 else score
    else score
  | none => score

/-- Wind blend policy of the single-airport path: above twenty knots with at
least five analogs, the score becomes the max of score and historical rate. -/
def windBlendRule (db : FindSimilar) (wind : Option ℚ) (score : ℚ) : ℚ :=
  match wind with
  | some w =>
    if w > 20 then
      let r := db none (some w) none
      if 5 ≤ r.1 then max score (((r.2 : ℚ) / (r.1 : ℚ)) * 100) else score
    else score
  | none => score

/-- Icing blend policy of the single-airport path: freezing with snow, rain or
fog in the condition text and at least five analogs, the score becomes the max
of score and historical rate. -/
def icingBlendRule (db : FindSimilar) (temp : Option ℚ) (dtext : String) (score : ℚ) : ℚ :=
  match temp with
  | some t =>
    if t < 32 then
      if containsSub dtext "snow" || containsSub dtext "rain" || containsSub dtext "fog" then
        let r := db none none (some t)
        if 5 ≤ r.1 then max score (((r.2 : ℚ) / (r.1 : ℚ)) * 100) else score
      else score
    else score
  | none => score

lemma histVisStep_score (db : FindSimilar) (vis : Option ℚ) (s : ℚ) :
    (histVisStep db vis s).score = visBlendRule db vis s := by
  cases vis with
  | none => rfl
  | some v =>
    simp only [histVisStep, visBlendRule]
    split_ifs <;> rfl

lemma histWindStep_score (db : FindSimilar) (wind : Option ℚ) (s : ℚ) :
    (histWindStep db wind s).score = windBlendRule db wind s := by
  cases wind with
  | none => rfl
  | some w =>
    simp only [histWindStep, windBlendRule]
    split_ifs <;> rfl

lemma histIcingStep_score (db : FindSimilar) (temp : Option ℚ) (dtext : String) (s : ℚ) :
    (histIcingStep db temp dtext s).score = icingBlendRule db temp dtext s := by
  cases temp with
  | none => rfl
  | some t =>
    simp only [histIcingStep, icingBlendRule]
    split_ifs <;> rfl

/-- C4: the single-airport pre-calibration score is exactly the visibility
blend (average, vis below three miles, at least five analogs) applied first,
then the wind blend (max, wind above twenty knots), then the icing blend (max,
freezing with precipitation-bearing text), each step consuming the previous
step's score, the result then capped to [0, 99]. -/
theorem history_blend_order (db : FindSimilar) (xw : Crosswind) (cf : ℚ)
    (flight : Flight) (weather : Weather) :
    (calculate_risk db xw cf flight weather).breakdown.final_score =
      max (min (icingBlendRule db weather.temperature_f (descTextOf weather)
        (windBlendRule db weather.wind_speed_knots
          (visBlendRule db weather.visibility_miles
            ((seasonalSection (parseScheduled flight.scheduled_time)).score +
              (weatherSection xw weather).score)))) 99) 0 := by
  simp only [calculate_risk, histVisStep_score, histWindStep_score, histIcingStep_score]

/-! Claim C9: missing or unparseable scheduled time. -/

/-- C9: when the scheduled time is missing or an unparseable string, scoring
still completes (the embedding is total), the seasonal-baseline entry of the
breakdown is zero, and the weather and historical sub-scores are still applied
exactly as usual. -/
theorem unparseable_time_keeps_scoring (db : FindSimilar) (xw : Crosswind) (cf : ℚ)
    (flight : Flight) (weather : Weather)
    (h : parseScheduled flight.scheduled_time = none) :
    (calculate_risk db xw cf flight weather).breakdown.seasonal_baseline = 0 ∧
    (calculate_risk db xw cf flight weather).breakdown.weather_score =
      (weatherSection xw weather).score ∧
    (calculate_risk db xw cf flight weather).breakdown.final_score =
      max (min (icingBlendRule db weather.temperature_f (descTextOf weather)
        (windBlendRule db weather.wind_speed_knots
          (visBlendRule db weather.visibility_miles
            (0 + (weatherSection xw weather).score)))) 99) 0 := by
  refine ⟨?_, ?_, ?_⟩
  · simp [calculate_risk, h, seasonalSection]
  · simp [calculate_risk]
  · simp only [calculate_risk, h, seasonalSection, histVisStep_score, histWindStep_score,
      histIcingStep_score]

/-- Witness for C9 at a concrete flight whose scheduled time is a string that
does not parse as an ISO timestamp. -/
theorem unparseable_time_keeps_scoring_witness :
    parseScheduled (Flight.mk (some (SchedTime.str none)) none none none).scheduled_time = none ∧
    (calculate_risk dbZero xwNone 1 {scheduled_time := some (SchedTime.str none)}
      {}).breakdown.seasonal_baseline = 0 :=
  ⟨rfl, (unparseable_time_keeps_scoring dbZero xwNone 1
    {scheduled_time := some (SchedTime.str none)} {} rfl).1⟩

/-! Claim C5: gust preference of the wind rules. -/

/-- Weather reading with a strong gust over a light sustained wind. -/
def gustWeather : Weather := { wind_speed_knots := some 10, wind_gust_knots := some 50 }

unseal Rat.add Rat.mul Rat.inv Rat.sub in
/-- Counterexample to C5 as stated: with sustained wind 10 kt and gust 50 kt
and no direction, the effective-wind rule (as _score_airport_weather applies
it) yields a 50-point wind sub-score, but calculate_risk's local weather score
is 0 — the single-airport path reads only the sustained speed and never the
gust. -/
theorem calculate_risk_ignores_gusts :
    (calculate_risk dbZero xwNone 1 {} gustWeather).breakdown.weather_score = 0 ∧
    score_airport_weather xwNone (some gustWeather) "KPUW" none = 50 ∧
    (0 : ℚ) ≠ 50 := by
  decide

/-- C5 (amended): the gust preference holds in _score_airport_weather — when a
gust is present the score is unchanged by overwriting the sustained speed with
the gust, i.e. only the effective wind matters — while calculate_risk ignores
the gust field entirely (its result is invariant under any change to it). -/
theorem effective_wind_gust_preference :
    (∀ (xw : Crosswind) (w : Weather) (g : ℚ) (code : String) (op : Option String),
      w.wind_gust_knots = some g →
        score_airport_weather xw (some w) code op =
          score_airport_weather xw (some {w with wind_speed_knots := some g}) code op) ∧
    (∀ (db : FindSimilar) (xw : Crosswind) (cf : ℚ) (flight : Flight) (w : Weather)
        (gu : Option ℚ),
      calculate_risk db xw cf flight {w with wind_gust_knots := gu} =
        calculate_risk db xw cf flight w) := by
  constructor
  · intro xw w g code op h
    cases w
    simp only [Weather.wind_gust_knots] at h
    subst h
    rfl
  · intro db xw cf flight w gu
    cases w
    rfl

/-- Witness for C5 (amended) at the concrete gusty reading. -/
theorem effective_wind_gust_preference_witness :
    score_airport_weather xwNone (some gustWeather) "KPUW" none =
      score_airport_weather xwNone (some {gustWeather with wind_speed_knots := some 50})
        "KPUW" none :=
  effective_wind_gust_preference.1 xwNone gustWeather 50 "KPUW" none rfl

/-! Claim C6: temperature clauses of the historical analog matchers. -/

/-- Query weather that is freezing combined with precipitation. -/
def freezePrecipWeather : Weather :=
  { temperature_f := some 20, precipitation_in := some (1/2 : ℚ) }

unseal Rat.add Rat.mul Rat.inv Rat.sub in
/-- Counterexample to C6 as stated: a freezing-with-precipitation query to the
multi-airport matcher produces only the precipitation clause — no
stored-temperature condition of any kind is added. -/
theorem multi_matcher_no_temp_clause :
    find_similar_flights_multi_airport_filter none (some freezePrecipWeather) none
        (some "arrival") = [Clause.originPrecipGe (2/5 : ℚ)] ∧
    (Clause.originPrecipGe (2/5 : ℚ)).isTempClause = false := by
  decide

lemma fingerprintClauses_noTemp (visC windC snowC precipC : ℚ → Clause)
    (h1 : ∀ q, (visC q).isTempClause = false) (h2 : ∀ q, (windC q).isTempClause = false)
    (h3 : ∀ q, (snowC q).isTempClause = false) (h4 : ∀ q, (precipC q).isTempClause = false)
    (w : Weather) :
    (fingerprintClauses visC windC snowC precipC w).all (fun c => !c.isTempClause) = true := by
  simp only [fingerprintClauses, List.all_append, Bool.and_eq_true]
  refine ⟨⟨⟨?_, ?_⟩, ?_⟩, ?_⟩
  · cases w.visibility_miles with
    | none => rfl
    | some v => try dsimp only
                split_ifs <;> simp [h1]
  · cases w.wind_gust_knots with
    | none =>
      cases w.wind_speed_knots with
      | none => rfl
      | some s => try dsimp only
                  split_ifs <;> simp [h2]
    | some g => try dsimp only
                split_ifs <;> simp [h2]
  · cases w.snow_depth_in with
    | none => rfl
    | some s => try dsimp only
                split_ifs <;> simp [h3]
  · cases w.precipitation_in with
    | none => rfl
    | some p => try dsimp only
                split_ifs <;> simp [h4]

/-- C6 (amended): the single-airport matcher adds its stored-temperature
condition (`temp_f < 34`) exactly when the query temperature is present and
below 34°F; the multi-airport matcher never adds a temperature clause at all,
for any query; and absent query fields contribute no clause (an all-absent
query yields an empty, never an always-false, filter). -/
theorem matcher_temperature_clauses :
    (∀ (vis wind : Option ℚ) (t : ℚ),
      Clause.tempLt 34 ∈ find_similar_flights_filter vis wind (some t) ↔ t < 34) ∧
    (∀ vis wind : Option ℚ,
      ((find_similar_flights_filter vis wind none).all fun c => !c.isTempClause) = true) ∧
    (∀ (puw ow dw : Option Weather) (ft : Option String),
      ((find_similar_flights_multi_airport_filter puw ow dw ft).all
        fun c => !c.isTempClause) = true) ∧
    (find_similar_flights_filter none none none = []) ∧
    (∀ ft : Option String, find_similar_flights_multi_airport_filter none none none ft = []) := by
  refine ⟨?_, ?_, ?_, rfl, ?_⟩
  · intro vis wind t
    simp only [find_similar_flights_filter, List.mem_append]
    constructor
    · rintro ((hmem | hmem) | hmem)
      · exfalso
        cases vis with
        | none => simp at hmem
        | some v =>
          try dsimp only at hmem
          split_ifs at hmem <;> simp_all
      · exfalso
        cases wind with
        | none => simp at hmem
        | some wv =>
          try dsimp only at hmem
          split_ifs at hmem <;> simp_all
      · try dsimp only at hmem
        split_ifs at hmem with hlt
        · exact hlt
        · simp at hmem
    · intro hlt
      refine Or.inr ?_
      try dsimp only
      rw [if_pos hlt]
      simp
  · intro vis wind
    simp only [find_similar_flights_filter, List.all_append, Bool.and_eq_true]
    refine ⟨⟨?_, ?_⟩, rfl⟩
    · cases vis with
      | none => rfl
      | some v => try dsimp only
                  split_ifs <;> rfl
    · cases wind with
      | none => rfl
      | some wv => try dsimp only
                   split_ifs <;> rfl
  · intro puw ow dw ft
    simp only [find_similar_flights_multi_airport_filter, List.all_append, Bool.and_eq_true]
    constructor
    · split_ifs
      · cases ow with
        | none => rfl
        | some w =>
          try dsimp only
          exact fingerprintClauses_noTemp Clause.originVisLe Clause.originWindGe
            Clause.originSnowGe Clause.originPrecipGe (fun _ => rfl) (fun _ => rfl)
            (fun _ => rfl) (fun _ => rfl) w
      · cases dw with
        | none => rfl
        | some w =>
          try dsimp only
          exact fingerprintClauses_noTemp Clause.destVisLe Clause.destWindGe
            Clause.destSnowGe Clause.destPrecipGe (fun _ => rfl) (fun _ => rfl)
            (fun _ => rfl) (fun _ => rfl) w
      · rfl
    · cases puw with
      | none => rfl
      | some w =>
        try dsimp only
        exact fingerprintClauses_noTemp Clause.puwVisLe Clause.puwWindGe
          Clause.puwSnowGe Clause.puwPrecipGe (fun _ => rfl) (fun _ => rfl)
          (fun _ => rfl) (fun _ => rfl) w
  · intro ft
    simp only [find_similar_flights_multi_airport_filter]
    split_ifs <;> rfl

/-! Claim C10: the seasonal-baseline factor is never emitted. -/

lemma iteLe {c : Prop} [Decidable c] {a b t : ℚ} (ha : a ≤ t) (hb : b ≤ t) :
    (if c then a else b) ≤ t := by
  split_ifs <;> assumption

lemma get_seasonal_baseline_le_ten (month : ℕ) : get_seasonal_baseline month ≤ 10 := by
  unfold get_seasonal_baseline
  repeat' apply iteLe
  all_goals norm_num

lemma seasonalSection_eq (pm : Option ℕ) :
    seasonalSection pm =
      ⟨(match pm with | some m => get_seasonal_baseline m | none => 0), [], []⟩ := by
  cases pm with
  | none => rfl
  | some m =>
    simp only [seasonalSection]
    rw [if_neg (not_lt.mpr (get_seasonal_baseline_le_ten m))]

lemma visBand_noSeasonal (vis : Option ℚ) :
    ((visBand vis).fs.all fun d => !d.isSeasonal) = true ∧
    ((visBand vis).ds.all fun d => !d.description.isSeasonal) = true := by
  cases vis with
  | none => exact ⟨rfl, rfl⟩
  | some v =>
    simp only [visBand]
    constructor <;> split_ifs <;> rfl

lemma windBandSingle_noSeasonal (xw : Crosswind) (wind dir : Option ℚ) :
    ((windBandSingle xw wind dir).fs.all fun d => !d.isSeasonal) = true ∧
    ((windBandSingle xw wind dir).ds.all fun d => !d.description.isSeasonal) = true := by
  unfold windBandSingle
  cases xw wind dir "KPUW" with
  | some c =>
    dsimp only
    constructor <;> split_ifs <;> rfl
  | none =>
    cases wind with
    | none => exact ⟨rfl, rfl⟩
    | some w =>
      dsimp only
      constructor <;> split_ifs <;> rfl

lemma icingBand_noSeasonal (temp : Option ℚ) (dtext : String) :
    ((icingBand temp dtext).fs.all fun d => !d.isSeasonal) = true ∧
    ((icingBand temp dtext).ds.all fun d => !d.description.isSeasonal) = true := by
  cases temp with
  | none => exact ⟨rfl, rfl⟩
  | some t =>
    simp only [icingBand]
    constructor <;> split_ifs <;> rfl

lemma weatherSection_noSeasonal (xw : Crosswind) (w : Weather) :
    ((weatherSection xw w).fs.all fun d => !d.isSeasonal) = true ∧
    ((weatherSection xw w).ds.all fun d => !d.description.isSeasonal) = true := by
  simp only [weatherSection, List.all_append, Bool.and_eq_true]
  exact ⟨⟨⟨(visBand_noSeasonal _).1, (windBandSingle_noSeasonal _ _ _).1⟩,
      (icingBand_noSeasonal _ _).1⟩,
    ⟨⟨(visBand_noSeasonal _).2, (windBandSingle_noSeasonal _ _ _).2⟩,
      (icingBand_noSeasonal _ _).2⟩⟩

lemma histVisStep_noSeasonal (db : FindSimilar) (vis : Option ℚ) (s : ℚ) :
    ((histVisStep db vis s).fs.all fun d => !d.isSeasonal) = true ∧
    ((histVisStep db vis s).ds.all fun d => !d.description.isSeasonal) = true := by
  cases vis with
  | none => exact ⟨rfl, rfl⟩
  | some v =>
    simp only [histVisStep]
    constructor <;> split_ifs <;> rfl

lemma histWindStep_noSeasonal (db : FindSimilar) (wind : Option ℚ) (s : ℚ) :
    ((histWindStep db wind s).fs.all fun d => !d.isSeasonal) = true ∧
    ((histWindStep db wind s).ds.all fun d => !d.description.isSeasonal) = true := by
  cases wind with
  | none => exact ⟨rfl, rfl⟩
  | some w =>
    simp only [histWindStep]
    constructor <;> split_ifs <;> rfl

lemma histIcingStep_noSeasonal (db : FindSimilar) (temp : Option ℚ) (dtext : String) (s : ℚ) :
    ((histIcingStep db temp dtext s).fs.all fun d => !d.isSeasonal) = true ∧
    ((histIcingStep db temp dtext s).ds.all fun d => !d.description.isSeasonal) = true := by
  cases temp with
  | none => exact ⟨rfl, rfl⟩
  | some t =>
    simp only [histIcingStep]
    constructor <;> split_ifs <;> rfl

lemma puwBlock_noSeasonal (s : ℚ) (w : Option Weather) :
    ((puwBlock s w).2.all fun d => !d.isSeasonal) = true := by
  simp only [puwBlock]
  split_ifs <;> rfl

lemma originBlock_noSeasonal (xw : Crosswind) (f : Flight) (ow : Option Weather) :
    ((originBlock xw f ow).fs.all fun d => !d.isSeasonal) = true ∧
    ((originBlock xw f ow).ds.all fun d => !d.description.isSeasonal) = true := by
  unfold originBlock
  split_ifs
  · cases ow with
    | none => exact ⟨rfl, rfl⟩
    | some w =>
      dsimp only
      constructor <;> split_ifs <;> rfl
  · exact ⟨rfl, rfl⟩

lemma destBlock_noSeasonal (xw : Crosswind) (f : Flight) (dw : Option Weather) :
    ((destBlock xw f dw).fs.all fun d => !d.isSeasonal) = true ∧
    ((destBlock xw f dw).ds.all fun d => !d.description.isSeasonal) = true := by
  unfold destBlock
  split_ifs
  · cases dw with
    | none => exact ⟨rfl, rfl⟩
    | some w =>
      dsimp only
      constructor <;> split_ifs <;> rfl
  · exact ⟨rfl, rfl⟩

lemma histMultiBlock_noSeasonal (pt pc ot oc : ℕ) (n : Option String) :
    ((histMultiBlock pt pc ot oc n).2.1.all fun d => !d.isSeasonal) = true ∧
    ((histMultiBlock pt pc ot oc n).2.2.all fun d => !d.description.isSeasonal) = true := by
  simp only [histMultiBlock]
  constructor <;> (dsimp only; rw [List.all_append]) <;> split_ifs <;> rfl

/-- C10: every monthly seasonal baseline (and the unknown-month default) is at
most 10, so the `baseline > 10` branch never fires: neither scoring path ever
emits a seasonal factor, in `factors` or in `detailed_factors`, and the
baseline contributes to the score only silently through
`breakdown.seasonal_baseline`. -/
theorem seasonal_factor_never_emitted :
    (∀ month : ℕ, get_seasonal_baseline month ≤ 10) ∧
    (∀ (db : FindSimilar) (xw : Crosswind) (cf : ℚ) (flight : Flight) (weather : Weather),
      ((calculate_risk db xw cf flight weather).factors.all fun d => !d.isSeasonal) = true ∧
      ((calculate_risk db xw cf flight weather).detailed_factors.all
        fun d => !d.description.isSeasonal) = true ∧
      (calculate_risk db xw cf flight weather).breakdown.seasonal_baseline =
        (match parseScheduled flight.scheduled_time with
          | some m => get_seasonal_baseline m
          | none => 0)) ∧
    (∀ (db : FindSimilar) (dbm : FindSimilarMulti) (xw : Crosswind) (cf : ℚ)
        (flight : Flight) (puw ow dw : Option Weather),
      ((calculate_risk_multi_airport db dbm xw cf flight puw ow dw).factors.all
        fun d => !d.isSeasonal) = true ∧
      ((calculate_risk_multi_airport db dbm xw cf flight puw ow dw).detailed_factors.all
        fun d => !d.description.isSeasonal) = true ∧
      (calculate_risk_multi_airport db dbm xw cf flight puw ow dw).breakdown.seasonal_baseline =
        (match parseScheduled flight.scheduled_time with
          | some m => get_seasonal_baseline m
          | none => 0)) := by
  refine ⟨get_seasonal_baseline_le_ten, ?_, ?_⟩
  · intro db xw cf flight weather
    refine ⟨?_, ?_, ?_⟩
    · simp only [calculate_risk, seasonalSection_eq, List.all_append, Bool.and_eq_true]
      exact ⟨⟨⟨⟨rfl, (weatherSection_noSeasonal _ _).1⟩, (histVisStep_noSeasonal _ _ _).1⟩,
        (histWindStep_noSeasonal _ _ _).1⟩, (histIcingStep_noSeasonal _ _ _ _).1⟩
    · simp only [calculate_risk, seasonalSection_eq, List.all_append, Bool.and_eq_true]
      exact ⟨⟨⟨⟨rfl, (weatherSection_noSeasonal _ _).2⟩, (histVisStep_noSeasonal _ _ _).2⟩,
        (histWindStep_noSeasonal _ _ _).2⟩, (histIcingStep_noSeasonal _ _ _ _).2⟩
    · simp only [calculate_risk, seasonalSection_eq]
  · intro db dbm xw cf flight puw ow dw
    refine ⟨?_, ?_, ?_⟩
    · simp only [calculate_risk_multi_airport, seasonalSection_eq, List.all_append,
        Bool.and_eq_true]
      exact ⟨⟨⟨⟨rfl, puwBlock_noSeasonal _ _⟩, (originBlock_noSeasonal _ _ _).1⟩,
        (destBlock_noSeasonal _ _ _).1⟩, (histMultiBlock_noSeasonal _ _ _ _ _).1⟩
    · simp only [calculate_risk_multi_airport, seasonalSection_eq, List.all_append,
        Bool.and_eq_true]
      exact ⟨⟨⟨rfl, (originBlock_noSeasonal _ _ _).2⟩, (destBlock_noSeasonal _ _ _).2⟩,
        (histMultiBlock_noSeasonal _ _ _ _ _).2⟩
    · simp only [calculate_risk_multi_airport, seasonalSection_eq]

/-! Claim C7: the crosswind calculator. -/

lemma foldl_min_le {α : Type} [LinearOrder α] :
    ∀ (xs : List α) (x y : α), y ∈ x :: xs → xs.foldl min x ≤ y := by
  intro xs
  induction xs with
  | nil =>
    intro x y hy
    rw [List.mem_singleton] at hy
    subst hy
    exact le_refl _
  | cons b bs ih =>
    intro x y hy
    simp only [List.foldl_cons]
    rcases List.mem_cons.mp hy with heq | hy2
    · rw [heq]
      calc bs.foldl min (min x b) ≤ min x b := ih (min x b) _ (List.mem_cons_self _ _)
        _ ≤ x := min_le_left _ _
    · rcases List.mem_cons.mp hy2 with heq | hy3
      · rw [heq]
        calc bs.foldl min (min x b) ≤ min x b := ih (min x b) _ (List.mem_cons_self _ _)
          _ ≤ b := min_le_right _ _
      · exact ih (min x b) y (List.mem_cons_of_mem _ hy3)

lemma foldl_min_mem {α : Type} [LinearOrder α] :
    ∀ (xs : List α) (x : α), xs.foldl min x ∈ x :: xs := by
  intro xs
  induction xs with
  | nil => intro x; simp
  | cons b bs ih =>
    intro x
    simp only [List.foldl_cons]
    rcases List.mem_cons.mp (ih (min x b)) with heq | hmem
    · rcases min_choice x b with hc | hc
      · rw [heq, hc]
        exact List.mem_cons_self _ _
      · rw [heq, hc]
        exact List.mem_cons_of_mem _ (List.mem_cons_self _ _)
    · exact List.mem_cons_of_mem _ (List.mem_cons_of_mem _ hmem)

lemma calculate_crosswind_some (s d : ℝ) (code : String) :
    calculate_crosswind (some s) (some d) code =
      match (RUNWAY_HEADINGS code).map (crosswindComponent s d) with
      | [] => none
      | x :: xs => some (xs.foldl min x) := rfl

/-- C7: with wind speed and direction both present, calculate_crosswind
returns exactly the minimum over the airport's configured runway headings of
`|speed * sin(angle)|` with the angle normalized to [0, 180] (the returned
value is a lower bound of every heading's component and is attained at some
heading); an unknown airport code uses the default two-heading configuration
[50, 230]; and concretely, crosswind at 20 kt from 140° against the [50, 230]
configuration is exactly 20. -/
theorem crosswind_minimum_spec :
    (∀ (s d : ℝ) (code : String) (c : ℝ),
      calculate_crosswind (some s) (some d) code = some c →
        (∀ h ∈ RUNWAY_HEADINGS code, c ≤ crosswindComponent s d h) ∧
        (∃ h ∈ RUNWAY_HEADINGS code, c = crosswindComponent s d h)) ∧
    (∀ code : String, code ≠ "KPUW" → code ≠ "KSEA" → code ≠ "KBOI" →
      RUNWAY_HEADINGS code = [50, 230]) ∧
    calculate_crosswind (some 20) (some 140) "KPUW" = some 20 := by
  have hpuw : RUNWAY_HEADINGS "KPUW" = [50, 230] := by
    unfold RUNWAY_HEADINGS
    rw [if_pos rfl]
  refine ⟨?_, ?_, ?_⟩
  · intro s d code c hc
    rw [calculate_crosswind_some] at hc
    rcases hm : (RUNWAY_HEADINGS code).map (crosswindComponent s d) with _ | ⟨x, xs⟩
    · rw [hm] at hc
      exact absurd hc (by simp)
    · rw [hm] at hc
      have hcx : xs.foldl min x = c := Option.some.inj hc
      constructor
      · intro h hh
        have hmem : crosswindComponent s d h ∈ x :: xs := by
          rw [← hm]
          exact List.mem_map_of_mem _ hh
        rw [← hcx]
        exact foldl_min_le xs x _ hmem
      · have hmem : xs.foldl min x ∈ x :: xs := foldl_min_mem xs x
        rw [← hm, hcx] at hmem
        rcases List.mem_map.mp hmem with ⟨h, hh, heq⟩
        exact ⟨h, hh, heq.symm⟩
  · intro code h1 h2 h3
    unfold RUNWAY_HEADINGS
    rw [if_neg h1, if_neg h2, if_neg h3]
  · have e1 : |(140 : ℝ) - 50| = 90 := by
      rw [show (140 : ℝ) - 50 = 90 by norm_num]
      exact abs_of_nonneg (by norm_num)
    have e2 : |(140 : ℝ) - 230| = 90 := by
      rw [show (140 : ℝ) - 230 = -90 by norm_num, abs_neg]
      exact abs_of_nonneg (by norm_num)
    have hsin : Real.sin ((90 : ℝ) * Real.pi / 180) = 1 := by
      rw [show (90 : ℝ) * Real.pi / 180 = Real.pi / 2 by ring]
      exact Real.sin_pi_div_two
    have h50 : crosswindComponent 20 140 50 = 20 := by
      simp only [crosswindComponent, e1]
      rw [if_neg (by norm_num), hsin, mul_one]
      exact abs_of_nonneg (by norm_num)
    have h230 : crosswindComponent 20 140 230 = 20 := by
      simp only [crosswindComponent, e2]
      rw [if_neg (by norm_num), hsin, mul_one]
      exact abs_of_nonneg (by norm_num)
    rw [calculate_crosswind_some, hpuw]
    simp only [List.map_cons, List.map_nil, h50, h230]
    simp [min_self]

/-- Witness for C7: the minimality part applied at the concrete 20 kt / 140°
reading on KPUW's headings, and the default configuration at an unknown
code. -/
theorem crosswind_minimum_spec_witness :
    calculate_crosswind (some 20) (some 140) "KPUW" = some 20 ∧
    (20 : ℝ) ≤ crosswindComponent 20 140 50 ∧
    RUNWAY_HEADINGS "KXYZ" = [50, 230] := by
  refine ⟨crosswind_minimum_spec.2.2, ?_,
    crosswind_minimum_spec.2.1 "KXYZ" (by decide) (by decide) (by decide)⟩
  have hmin := (crosswind_minimum_spec.1 20 140 "KPUW" 20 crosswind_minimum_spec.2.2).1
  refine hmin 50 ?_
  have hpuw : RUNWAY_HEADINGS "KPUW" = [50, 230] := by
    unfold RUNWAY_HEADINGS
    rw [if_pos rfl]
  rw [hpuw]
  exact List.mem_cons_self _ _

end WillIFly
